import Mathlib

/-!
Verification of the Bot-Detection-System traffic classification pipeline.

This file gives a shallow embedding, in Lean 4, of the Python source of the
repository (log parser, bot detector, blocklist export, user-agent
sanitizer) together with a model, taken from the design document, of the
DDoS window analyzer whose implementation file is not part of the sources.
Python floats are embedded as rationals, Python ints as naturals, Python
dicts (which preserve insertion order) as association lists, and fallible
operations return `Option`/`Except`.
-/

namespace BotDetection

/-! ## A small backtracking regular-expression engine

`re.match` in the source is embedded by a fuelled backtracking matcher over
a regex syntax tree.  Greedy `*`/`+` with backtracking and numbered capture
groups follow Python semantics; character classes are predicates.
-/

/-- Python's `\s` class over the ASCII range. -/
def isPySpace (c : Char) : Bool :=
  c = ' ' || c = '\t' || c = '\n' || c = '\r' || c = '\x0b' || c = '\x0c'

/-- ASCII decimal digit test (Python's `\d` on ASCII input). -/
def isDigit10 (c : Char) : Bool := '0' ≤ c && c ≤ '9'

/-- Regex syntax: literals, classes, greedy star/plus, alternation of
sequences, numbered capture groups and the `$` anchor. -/
inductive RE where
  | lit : Char → RE
  | cls : (Char → Bool) → RE
  | star : RE → RE
  | rplus : RE → RE
  | alt : List RE → List RE → RE
  | group : Nat → List RE → RE
  | endAnchor : RE

/-- Capture environment: latest binding for a group index comes first. -/
abbrev Captures := List (Nat × List Char)

/-- Backtracking matcher in continuation style.  The continuation is invoked
for every way the regex sequence can match a prefix of the input, longest
first for greedy operators, so the first continuation success is the match
Python's engine reports.  Fuel only forces termination; every starred
subexpression of the patterns below consumes input, so the fuel used in
`reMatch` is never exhausted on them. -/
def matchSeq : Nat → List RE → List Char → Captures →
    (List Char → Captures → Option Captures) → Option Captures
  | 0, _, _, _, _ => none
  | _ + 1, [], s, env, k => k s env
  | fuel + 1, RE.lit c :: rs, s, env, k =>
    match s with
    | [] => none
    | c2 :: s2 => if c2 = c then matchSeq fuel rs s2 env k else none
  | fuel + 1, RE.cls p :: rs, s, env, k =>
    match s with
    | [] => none
    | c2 :: s2 => if p c2 then matchSeq fuel rs s2 env k else none
  | fuel + 1, RE.star r :: rs, s, env, k =>
    match matchSeq fuel [r] s env (fun s2 env2 =>
        if s2.length < s.length then matchSeq fuel (RE.star r :: rs) s2 env2 k
        else none) with
    | some res => some res
    | none => matchSeq fuel rs s env k
  | fuel + 1, RE.rplus r :: rs, s, env, k =>
    matchSeq fuel (r :: RE.star r :: rs) s env k
  | fuel + 1, RE.alt a b :: rs, s, env, k =>
    match matchSeq fuel (a ++ rs) s env k with
    | some res => some res
    | none => matchSeq fuel (b ++ rs) s env k
  | fuel + 1, RE.group i rs2 :: rs, s, env, k =>
    matchSeq fuel rs2 s env (fun s2 env2 =>
      matchSeq fuel rs s2 ((i, s.take (s.length - s2.length)) :: env2) k)
  | fuel + 1, RE.endAnchor :: rs, s, env, k =>
    if s = [] ∨ s = ['\n'] then matchSeq fuel rs s env k else none

/-- Fuel bound: linear in the input length with a generous constant. -/
def matchFuel (s : String) : Nat := (s.length + 200) * 20

/-- `re.match(pattern, s)`: anchored at the start of `s`, not required to
reach the end.  On success returns the capture-group lookup. -/
def reMatch (pat : List RE) (s : String) : Option (Nat → Option String) :=
  match matchSeq (matchFuel s) pat s.data [] (fun _ env => some env) with
  | some env => some (fun i => (env.lookup i).map (fun l => String.mk l))
  | none => none

/-- Shorthand: the regex characters of a plain literal string. -/
def lits (s : String) : List RE := s.data.map RE.lit

/-- `\S` (non-whitespace). -/
def reNonSpace : RE := RE.cls (fun c => ¬ isPySpace c)

/-- `.` (any character except newline). -/
def reAny : RE := RE.cls (fun c => c ≠ '\n')

/-- `\d`. -/
def reDigit : RE := RE.cls isDigit10

/-! ## Traffic pattern and detector data model

`TrafficPattern` is the per-IP aggregate record consumed by
`detectors.py`; its fields are those the detector reads, typed per the
design document (rates and ratios are floats, counts are ints). -/

structure TrafficPattern where
  ip : String
  request_count : Nat
  requests_per_minute : ℚ
  user_agents : List String
  unique_paths : Nat
  error_rate : ℚ
  suspicious_requests : Nat
  avg_response_time : ℚ
deriving DecidableEq, Repr

/-- `BotSignature` dataclass of `detectors.py`.  The user-agent regexes are
stored compiled; matching is case-insensitive (`re.IGNORECASE`), modelled by
lower-casing the subject, so the literals below are the lower-cased pattern
text. -/
structure BotSignature where
  name : String
  user_agent_patterns : List (List RE)
  behavior_patterns : List String
  confidence_score : ℚ
  description : String

/-- `BotDetectionResult` dataclass of `detectors.py`. -/
structure BotDetectionResult where
  ip : String
  is_bot : Bool
  confidence : ℚ
  reasons : List String
  risk_level : String
  recommended_action : String
deriving DecidableEq, Repr

/-- `curl/.*` (lower-cased). -/
def patCurl : List RE := lits "curl/" ++ [RE.star reAny]
/-- `python-requests/.*`. -/
def patPythonRequests : List RE := lits "python-requests/" ++ [RE.star reAny]
/-- `Wget/.*` (lower-cased). -/
def patWget : List RE := lits "wget/" ++ [RE.star reAny]
/-- `.*bot.*`. -/
def patBot : List RE := [RE.star reAny] ++ lits "bot" ++ [RE.star reAny]
/-- `.*crawler.*`. -/
def patCrawler : List RE := [RE.star reAny] ++ lits "crawler" ++ [RE.star reAny]
/-- `.*spider.*`. -/
def patSpider : List RE := [RE.star reAny] ++ lits "spider" ++ [RE.star reAny]
/-- `HeadlessChrome.*` (lower-cased). -/
def patHeadless : List RE := lits "headlesschrome" ++ [RE.star reAny]
/-- `PhantomJS.*` (lower-cased). -/
def patPhantom : List RE := lits "phantomjs" ++ [RE.star reAny]
/-- `.*scan.*`. -/
def patScan : List RE := [RE.star reAny] ++ lits "scan" ++ [RE.star reAny]
/-- `.*vuln.*`. -/
def patVuln : List RE := [RE.star reAny] ++ lits "vuln" ++ [RE.star reAny]
/-- `.*security.*`. -/
def patSecurity : List RE := [RE.star reAny] ++ lits "security" ++ [RE.star reAny]

/-- `BotDetector._load_bot_signatures`. -/
def bot_signatures : List BotSignature :=
  [ { name := "Curl Bot", user_agent_patterns := [patCurl],
      behavior_patterns := ["high_frequency", "single_path", "tool_based"],
      confidence_score := 0.9,
      description := "Command-line tool often used for automated requests" },
    { name := "Python Requests", user_agent_patterns := [patPythonRequests],
      behavior_patterns := ["high_frequency", "api_focused", "automated"],
      confidence_score := 0.8,
      description := "Python HTTP library commonly used in scripts" },
    { name := "Wget Bot", user_agent_patterns := [patWget],
      behavior_patterns := ["sequential_download", "high_frequency"],
      confidence_score := 0.9,
      description := "Download tool often used for scraping" },
    { name := "Generic Bot", user_agent_patterns := [patBot, patCrawler, patSpider],
      behavior_patterns := ["systematic_crawling"],
      confidence_score := 0.7,
      description := "Generic bot patterns in user agent" },
    { name := "Headless Browser", user_agent_patterns := [patHeadless, patPhantom],
      behavior_patterns := ["automated_browsing"],
      confidence_score := 0.6,
      description := "Headless browser automation" },
    { name := "Security Scanner", user_agent_patterns := [patScan, patVuln, patSecurity],
      behavior_patterns := ["vulnerability_scanning", "path_enumeration"],
      confidence_score := 0.95,
      description := "Security scanning tools" } ]

/-- `re.match(pattern, ua, re.IGNORECASE)` tested for success: the stored
patterns are lower-cased, the subject is lower-cased. -/
def uaPatMatch (pat : List RE) (ua : String) : Bool :=
  (reMatch pat ua.toLower).isSome

/-- `BotDetector._analyze_user_agents`: no user agent scores 0.5; otherwise
the running maximum, over every (user agent, signature, pattern) triple that
matches, of the signature's confidence score, starting from 0. -/
def analyze_user_agents (user_agents : List String) : ℚ :=
  if user_agents = [] then 0.5
  else
    user_agents.foldl (fun acc ua =>
      bot_signatures.foldl (fun acc2 sig =>
        sig.user_agent_patterns.foldl (fun acc3 pat =>
          if uaPatMatch pat ua then max acc3 sig.confidence_score else acc3)
          acc2) acc) 0

/-- `BotDetector._is_timing_suspicious`. -/
def is_timing_suspicious (pattern : TrafficPattern) : Bool :=
  pattern.requests_per_minute > 5 && pattern.avg_response_time < 100

/-- `BotDetector._calculate_risk_level`. -/
def calculate_risk_level (confidence : ℚ) (pattern : TrafficPattern) : String :=
  if confidence ≥ 0.9 ∨ pattern.suspicious_requests > 5 then "CRITICAL"
  else if confidence ≥ 0.7 ∨ pattern.requests_per_minute > 20 then "HIGH"
  else if confidence ≥ 0.5 ∨ pattern.requests_per_minute > 10 then "MEDIUM"
  else "LOW"

/-- `BotDetector._recommend_action`. -/
def recommend_action (risk_level : String) : String :=
  if risk_level = "CRITICAL" then "BLOCK_IMMEDIATELY - High confidence malicious bot"
  else if risk_level = "HIGH" then "RATE_LIMIT_STRICT - Apply strict rate limiting"
  else if risk_level = "MEDIUM" then "RATE_LIMIT_MODERATE - Apply moderate rate limiting"
  else if risk_level = "LOW" then "MONITOR - Continue monitoring for patterns"
  else "MONITOR"

/-- `BotDetector._analyze_single_ip`: the additive scoring pass.  The reason
strings keep the source's fixed prefixes; the interpolated numbers are
abstracted away. -/
def analyze_single_ip (pattern : TrafficPattern) : BotDetectionResult :=
  let confidence : ℚ := 0
  let reasons : List String := []
  let confidence := if pattern.requests_per_minute > 10 then confidence + 0.3 else confidence
  let reasons := if pattern.requests_per_minute > 10 then reasons ++ ["High request rate"] else reasons
  let bot_ua_score := analyze_user_agents pattern.user_agents
  let confidence := confidence + bot_ua_score * 0.3
  let reasons := if bot_ua_score > 0 then reasons ++ ["Bot-like user agent detected"] else reasons
  let confidence := if pattern.unique_paths = 1 ∧ pattern.request_count > 10 then confidence + 0.2 else confidence
  let reasons := if pattern.unique_paths = 1 ∧ pattern.request_count > 10 then reasons ++ ["Low path diversity with high volume"] else reasons
  let confidence := if pattern.error_rate > 0.3 then confidence + 0.2 else confidence
  let reasons := if pattern.error_rate > 0.3 then reasons ++ ["High error rate"] else reasons
  let confidence := if pattern.suspicious_requests > 0 then confidence + 0.4 else confidence
  let reasons := if pattern.suspicious_requests > 0 then reasons ++ ["Suspicious path requests"] else reasons
  let confidence := if is_timing_suspicious pattern then confidence + 0.1 else confidence
  let reasons := if is_timing_suspicious pattern then reasons ++ ["Suspicious timing patterns"] else reasons
  let is_bot : Bool := decide (confidence > 0.5)
  let risk_level := calculate_risk_level confidence pattern
  { ip := pattern.ip
    is_bot := is_bot
    confidence := min 1 confidence
    reasons := reasons
    risk_level := risk_level
    recommended_action := recommend_action risk_level }

/-- `BotDetector.detect_bots` over an insertion-ordered map. -/
def detect_bots (traffic_patterns : List (String × TrafficPattern)) :
    List (String × BotDetectionResult) :=
  traffic_patterns.map (fun p => (p.1, analyze_single_ip p.2))

/-! ## Log entry model and timestamp parsing -/

/-- A parsed `datetime` value: civil date and time plus the optional UTC
offset in minutes that `%z` contributes. -/
structure PyDateTime where
  year : Nat
  month : Nat
  day : Nat
  hour : Nat
  minute : Nat
  second : Nat
  tz_offset_minutes : Option Int := none
deriving DecidableEq, Repr

/-- `LogEntry` record produced by the parser (fields per the parser's
constructor calls). -/
structure LogEntry where
  ip : String
  country : String
  timestamp : PyDateTime
  method : String
  path : String
  status_code : Nat
  response_size : Nat
  user_agent : String
  response_time : Nat
deriving DecidableEq, Repr

/-- Python `str.strip()`: drop leading and trailing whitespace. -/
def pyStrip (s : String) : String :=
  String.mk (((s.data.dropWhile isPySpace).reverse.dropWhile isPySpace).reverse)

/-- Leap-year rule of the proleptic Gregorian calendar. -/
def isLeapYear (y : Nat) : Bool :=
  y % 4 = 0 && (y % 100 ≠ 0 || y % 400 = 0)

/-- Length of a month (1-12). -/
def daysInMonth (y m : Nat) : Nat :=
  if m = 2 then (if isLeapYear y then 29 else 28)
  else if m = 4 ∨ m = 6 ∨ m = 9 ∨ m = 11 then 30
  else 31

/-- `datetime(...)` constructor validation: ranges a Python `datetime`
accepts (`strptime` directives already bound hour/minute; seconds 60-61 and
impossible days of month are rejected here, as the constructor does). -/
def validDateTime (dt : PyDateTime) : Bool :=
  1 ≤ dt.year && dt.year ≤ 9999 && 1 ≤ dt.month && dt.month ≤ 12 &&
  1 ≤ dt.day && dt.day ≤ daysInMonth dt.year dt.month &&
  dt.hour ≤ 23 && dt.minute ≤ 59 && dt.second ≤ 59

/-- Numeric value of an ASCII digit. -/
def digitVal (c : Char) : Nat := c.toNat - '0'.toNat

/-- A 1-2 digit `strptime` directive (`%d`, `%m`, `%H`, `%M`, `%S`): CPython
compiles these to an alternation that prefers the two-digit reading when its
value is in range and otherwise falls back to one digit. -/
def takeNum2 (lo hi : Nat) : List Char → Option (Nat × List Char)
  | c1 :: c2 :: rest =>
    if isDigit10 c1 && isDigit10 c2 then
      let v := digitVal c1 * 10 + digitVal c2
      if lo ≤ v ∧ v ≤ hi then some (v, rest)
      else if lo ≤ digitVal c1 ∧ digitVal c1 ≤ hi then some (digitVal c1, c2 :: rest)
      else none
    else if isDigit10 c1 ∧ lo ≤ digitVal c1 ∧ digitVal c1 ≤ hi then
      some (digitVal c1, c2 :: rest)
    else none
  | [c1] =>
    if isDigit10 c1 ∧ lo ≤ digitVal c1 ∧ digitVal c1 ≤ hi then some (digitVal c1, [])
    else none
  | [] => none

/-- `%Y`: exactly four digits. -/
def takeYear4 : List Char → Option (Nat × List Char)
  | c1 :: c2 :: c3 :: c4 :: rest =>
    if isDigit10 c1 && isDigit10 c2 && isDigit10 c3 && isDigit10 c4 then
      some (((digitVal c1 * 10 + digitVal c2) * 10 + digitVal c3) * 10 + digitVal c4, rest)
    else none
  | _ => none

/-- The twelve lower-cased month abbreviations, in month order. -/
def monthAbbrevs : List String :=
  ["jan", "feb", "mar", "apr", "may", "jun", "jul", "aug", "sep", "oct", "nov", "dec"]

/-- `%b`: a case-insensitive three-letter month abbreviation. -/
def takeMonthAbbrev : List Char → Option (Nat × List Char)
  | c1 :: c2 :: c3 :: rest =>
    let w := String.mk [c1.toLower, c2.toLower, c3.toLower]
    match (monthAbbrevs.indexOf? w) with
    | some i => some (i + 1, rest)
    | none => none
  | _ => none

/-- A literal character of a `strptime` format string. -/
def takeLit (c : Char) : List Char → Option (List Char)
  | c1 :: rest => if c1 = c then some rest else none
  | _ => none

/-- Whitespace in a `strptime` format string matches one or more whitespace
characters. -/
def takeWs : List Char → Option (List Char)
  | c1 :: rest => if isPySpace c1 then some (rest.dropWhile isPySpace) else none
  | _ => none

/-- `%z`: `Z`, or a sign followed by `HH`, an optional colon and `MM`; the
resulting offset must stay inside the ±24 h bound `timezone` enforces. -/
def takeTz : List Char → Option (Int × List Char)
  | 'Z' :: rest => some (0, rest)
  | c :: rest =>
    if c = '+' ∨ c = '-' then
      match rest with
      | h1 :: h2 :: rest2 =>
        if isDigit10 h1 && isDigit10 h2 then
          let hh := digitVal h1 * 10 + digitVal h2
          let rest3 := if rest2.head? = some ':' then rest2.tail else rest2
          match rest3 with
          | m1 :: m2 :: rest4 =>
            if isDigit10 m1 && isDigit10 m2 then
              let mm := digitVal m1 * 10 + digitVal m2
              let total : Int := (hh * 60 + mm : Nat)
              if total ≤ 1439 then
                some ((if c = '-' then -total else total), rest4)
              else none
            else none
          | _ => none
        else none
      | _ => none
    else none
  | [] => none

/-- Format `%d/%b/%Y:%H:%M:%S %z`. -/
def fmtApacheTz (cs : List Char) : Option PyDateTime :=
  match takeNum2 1 31 cs with
  | none => none
  | some (d, cs) =>
  match takeLit '/' cs with
  | none => none
  | some cs =>
  match takeMonthAbbrev cs with
  | none => none
  | some (mo, cs) =>
  match takeLit '/' cs with
  | none => none
  | some cs =>
  match takeYear4 cs with
  | none => none
  | some (y, cs) =>
  match takeLit ':' cs with
  | none => none
  | some cs =>
  match takeNum2 0 23 cs with
  | none => none
  | some (h, cs) =>
  match takeLit ':' cs with
  | none => none
  | some cs =>
  match takeNum2 0 59 cs with
  | none => none
  | some (mi, cs) =>
  match takeLit ':' cs with
  | none => none
  | some cs =>
  match takeNum2 0 61 cs with
  | none => none
  | some (s, cs) =>
  match takeWs cs with
  | none => none
  | some cs =>
  match takeTz cs with
  | none => none
  | some (z, cs) =>
  if cs = [] then
    let dt : PyDateTime := ⟨y, mo, d, h, mi, s, some z⟩
    if validDateTime dt then some dt else none
  else none
/-- Format `%d/%b/%Y:%H:%M:%S`. -/
def fmtApache (cs : List Char) : Option PyDateTime :=
  match takeNum2 1 31 cs with
  | none => none
  | some (d, cs) =>
  match takeLit '/' cs with
  | none => none
  | some cs =>
  match takeMonthAbbrev cs with
  | none => none
  | some (mo, cs) =>
  match takeLit '/' cs with
  | none => none
  | some cs =>
  match takeYear4 cs with
  | none => none
  | some (y, cs) =>
  match takeLit ':' cs with
  | none => none
  | some cs =>
  match takeNum2 0 23 cs with
  | none => none
  | some (h, cs) =>
  match takeLit ':' cs with
  | none => none
  | some cs =>
  match takeNum2 0 59 cs with
  | none => none
  | some (mi, cs) =>
  match takeLit ':' cs with
  | none => none
  | some cs =>
  match takeNum2 0 61 cs with
  | none => none
  | some (s, cs) =>
  if cs = [] then
    let dt : PyDateTime := ⟨y, mo, d, h, mi, s, none⟩
    if validDateTime dt then some dt else none
  else none

/-- Format `%d/%m/%Y:%H:%M:%S`. -/
def fmtDayMonthNum (cs : List Char) : Option PyDateTime :=
  match takeNum2 1 31 cs with
  | none => none
  | some (d, cs) =>
  match takeLit '/' cs with
  | none => none
  | some cs =>
  match takeNum2 1 12 cs with
  | none => none
  | some (mo, cs) =>
  match takeLit '/' cs with
  | none => none
  | some cs =>
  match takeYear4 cs with
  | none => none
  | some (y, cs) =>
  match takeLit ':' cs with
  | none => none
  | some cs =>
  match takeNum2 0 23 cs with
  | none => none
  | some (h, cs) =>
  match takeLit ':' cs with
  | none => none
  | some cs =>
  match takeNum2 0 59 cs with
  | none => none
  | some (mi, cs) =>
  match takeLit ':' cs with
  | none => none
  | some cs =>
  match takeNum2 0 61 cs with
  | none => none
  | some (s, cs) =>
  if cs = [] then
    let dt : PyDateTime := ⟨y, mo, d, h, mi, s, none⟩
    if validDateTime dt then some dt else none
  else none
/-- Format `%Y-%m-%d %H:%M:%S`. -/
def fmtIso (cs : List Char) : Option PyDateTime :=
  match takeYear4 cs with
  | none => none
  | some (y, cs) =>
  match takeLit '-' cs with
  | none => none
  | some cs =>
  match takeNum2 1 12 cs with
  | none => none
  | some (mo, cs) =>
  match takeLit '-' cs with
  | none => none
  | some cs =>
  match takeNum2 1 31 cs with
  | none => none
  | some (d, cs) =>
  match takeWs cs with
  | none => none
  | some cs =>
  match takeNum2 0 23 cs with
  | none => none
  | some (h, cs) =>
  match takeLit ':' cs with
  | none => none
  | some cs =>
  match takeNum2 0 59 cs with
  | none => none
  | some (mi, cs) =>
  match takeLit ':' cs with
  | none => none
  | some cs =>
  match takeNum2 0 61 cs with
  | none => none
  | some (s, cs) =>
  if cs = [] then
    let dt : PyDateTime := ⟨y, mo, d, h, mi, s, none⟩
    if validDateTime dt then some dt else none
  else none
/-- Format `%d/%b/%Y:%H:%M:%S +0000` (literal offset text). -/
def fmtApachePlus0000 (cs : List Char) : Option PyDateTime :=
  match takeNum2 1 31 cs with
  | none => none
  | some (d, cs) =>
  match takeLit '/' cs with
  | none => none
  | some cs =>
  match takeMonthAbbrev cs with
  | none => none
  | some (mo, cs) =>
  match takeLit '/' cs with
  | none => none
  | some cs =>
  match takeYear4 cs with
  | none => none
  | some (y, cs) =>
  match takeLit ':' cs with
  | none => none
  | some cs =>
  match takeNum2 0 23 cs with
  | none => none
  | some (h, cs) =>
  match takeLit ':' cs with
  | none => none
  | some cs =>
  match takeNum2 0 59 cs with
  | none => none
  | some (mi, cs) =>
  match takeLit ':' cs with
  | none => none
  | some cs =>
  match takeNum2 0 61 cs with
  | none => none
  | some (s, cs) =>
  match takeWs cs with
  | none => none
  | some cs =>
  match takeLit '+' cs with
  | none => none
  | some cs =>
  match takeLit '0' cs with
  | none => none
  | some cs =>
  match takeLit '0' cs with
  | none => none
  | some cs =>
  match takeLit '0' cs with
  | none => none
  | some cs =>
  match takeLit '0' cs with
  | none => none
  | some cs =>
  if cs = [] then
    let dt : PyDateTime := ⟨y, mo, d, h, mi, s, none⟩
    if validDateTime dt then some dt else none
  else none
/-- The format list of `LogParser._parse_timestamp`, tried in order. -/
def tryTimestampFormats (cs : List Char) : Option PyDateTime :=
  match fmtApacheTz cs with
  | some dt => some dt
  | none =>
    match fmtApache cs with
    | some dt => some dt
    | none =>
      match fmtDayMonthNum cs with
      | some dt => some dt
      | none =>
        match fmtIso cs with
        | some dt => some dt
        | none => fmtApachePlus0000 cs

/-- `re.sub(r'[+-]\d{4}$', '', s)`: remove a trailing sign-and-four-digit
offset (also when it stands just before a final newline). -/
def stripTzSuffix (s : String) : String :=
  let cs := s.data
  let n := cs.length
  let endsOffsetAt (k : Nat) : Bool :=
    match (cs.drop k) with
    | c :: d1 :: d2 :: d3 :: d4 :: rest =>
      (c = '+' || c = '-') && isDigit10 d1 && isDigit10 d2 && isDigit10 d3 &&
        isDigit10 d4 && (rest = [] || rest = ['\n'])
    | _ => false
  if 5 ≤ n ∧ endsOffsetAt (n - 5) then String.mk (cs.take (n - 5))
  else if 6 ≤ n ∧ endsOffsetAt (n - 6) then String.mk (cs.take (n - 6) ++ ['\n'])
  else s

/-- `LogParser._parse_timestamp`: the format list, then — when the string
contains `+` or `-` — one retry with the trailing offset stripped. -/
def parse_timestamp (timestamp_str : String) : Option PyDateTime :=
  match tryTimestampFormats timestamp_str.data with
  | some dt => some dt
  | none =>
    if timestamp_str.data.contains '+' ∨ timestamp_str.data.contains '-' then
      tryTimestampFormats (pyStrip (stripTzSuffix timestamp_str)).data
    else none

/-! ## The three line grammars and the line/file parsers -/

/-- `int()` applied to the digit strings the grammars capture. -/
def toNatDigits (s : String) : Option Nat :=
  if s ≠ "" ∧ s.data.all isDigit10 then
    some (s.data.foldl (fun a c => a * 10 + digitVal c) 0)
  else none

/-- `[^\]]` character class. -/
def reNotRBracket : RE := RE.cls (fun c => c ≠ ']')

/-- `[^"]` character class. -/
def reNotQuote : RE := RE.cls (fun c => c ≠ '"')

/-- `\s` character class. -/
def reSpaceCls : RE := RE.cls isPySpace

/-- `[\d\.]` character class. -/
def reDigitOrDot : RE := RE.cls (fun c => isDigit10 c || c = '.')

/-- Common Log Format:
`^(\S+) \S+ \S+ \[([^\]]+)\] "(\S+) ([^"]*) \S+" (\d+) (\d+|-)`. -/
def common_pattern : List RE :=
  [RE.group 1 [RE.rplus reNonSpace], RE.lit ' ', RE.rplus reNonSpace, RE.lit ' ',
   RE.rplus reNonSpace, RE.lit ' ', RE.lit '[', RE.group 2 [RE.rplus reNotRBracket],
   RE.lit ']', RE.lit ' ', RE.lit '"', RE.group 3 [RE.rplus reNonSpace], RE.lit ' ',
   RE.group 4 [RE.star reNotQuote], RE.lit ' ', RE.rplus reNonSpace, RE.lit '"',
   RE.lit ' ', RE.group 5 [RE.rplus reDigit], RE.lit ' ',
   RE.group 6 [RE.alt [RE.rplus reDigit] [RE.lit '-']]]

/-- Combined Log Format:
`^(\S+) \S+ \S+ \[([^\]]+)\] "(\S+) ([^"]*) \S+" (\d+) (\d+|-) "([^"]*)" "([^"]*)"`. -/
def combined_pattern : List RE :=
  common_pattern ++
  [RE.lit ' ', RE.lit '"', RE.group 7 [RE.star reNotQuote], RE.lit '"',
   RE.lit ' ', RE.lit '"', RE.group 8 [RE.star reNotQuote], RE.lit '"']

/-- Custom format:
`^(\S+) - (\S+) - \[([^\]]+)\] "(\S+) ([^"]*) HTTP/[\d\.]+"\s+(\d+)\s+(\d+)\s+"([^"]*)"\s+"([^"]*)"\s+(\d+)$`. -/
def custom_pattern : List RE :=
  [RE.group 1 [RE.rplus reNonSpace]] ++ lits " - " ++
  [RE.group 2 [RE.rplus reNonSpace]] ++ lits " - " ++
  [RE.lit '[', RE.group 3 [RE.rplus reNotRBracket], RE.lit ']', RE.lit ' ',
   RE.lit '"', RE.group 4 [RE.rplus reNonSpace], RE.lit ' ',
   RE.group 5 [RE.star reNotQuote]] ++ lits " HTTP/" ++
  [RE.rplus reDigitOrDot, RE.lit '"', RE.rplus reSpaceCls,
   RE.group 6 [RE.rplus reDigit], RE.rplus reSpaceCls,
   RE.group 7 [RE.rplus reDigit], RE.rplus reSpaceCls,
   RE.lit '"', RE.group 8 [RE.star reNotQuote], RE.lit '"', RE.rplus reSpaceCls,
   RE.lit '"', RE.group 9 [RE.star reNotQuote], RE.lit '"', RE.rplus reSpaceCls,
   RE.group 10 [RE.rplus reDigit], RE.endAnchor]

/-- `LogParser._parse_custom_format`. -/
def parse_custom_format (line : String) : Option LogEntry :=
  match reMatch custom_pattern line with
  | none => none
  | some g =>
  match g 1 with
  | none => none
  | some ip =>
  match g 2 with
  | none => none
  | some country =>
  match g 3 with
  | none => none
  | some timestamp_str =>
  match g 4 with
  | none => none
  | some method =>
  match g 5 with
  | none => none
  | some path =>
  match g 6 with
  | none => none
  | some status_str =>
  match g 7 with
  | none => none
  | some size_str =>
  match g 8 with
  | none => none
  | some _referer =>
  match g 9 with
  | none => none
  | some user_agent =>
  match g 10 with
  | none => none
  | some rtime_str =>
  match toNatDigits status_str with
  | none => none
  | some status_code =>
  match (if size_str = "-" then some 0 else toNatDigits size_str) with
  | none => none
  | some response_size =>
  match toNatDigits rtime_str with
  | none => none
  | some response_time =>
  match parse_timestamp timestamp_str with
  | none => none
  | some timestamp =>
  some { ip, country, timestamp, method, path, status_code, response_size,
         user_agent, response_time }

/-- `LogParser._parse_combined_format`. -/
def parse_combined_format (line : String) : Option LogEntry :=
  match reMatch combined_pattern line with
  | none => none
  | some g =>
  match g 1 with
  | none => none
  | some ip =>
  match g 2 with
  | none => none
  | some timestamp_str =>
  match g 3 with
  | none => none
  | some method =>
  match g 4 with
  | none => none
  | some path =>
  match g 5 with
  | none => none
  | some status_str =>
  match g 6 with
  | none => none
  | some size_str =>
  match g 7 with
  | none => none
  | some _referer =>
  match g 8 with
  | none => none
  | some user_agent =>
  match toNatDigits status_str with
  | none => none
  | some status_code =>
  match (if size_str = "-" then some 0 else toNatDigits size_str) with
  | none => none
  | some response_size =>
  match parse_timestamp timestamp_str with
  | none => none
  | some timestamp =>
  some { ip, country := "--", timestamp, method, path, status_code,
         response_size, user_agent, response_time := 0 }

/-- `LogParser._parse_common_format`. -/
def parse_common_format (line : String) : Option LogEntry :=
  match reMatch common_pattern line with
  | none => none
  | some g =>
  match g 1 with
  | none => none
  | some ip =>
  match g 2 with
  | none => none
  | some timestamp_str =>
  match g 3 with
  | none => none
  | some method =>
  match g 4 with
  | none => none
  | some path =>
  match g 5 with
  | none => none
  | some status_str =>
  match g 6 with
  | none => none
  | some size_str =>
  match toNatDigits status_str with
  | none => none
  | some status_code =>
  match (if size_str = "-" then some 0 else toNatDigits size_str) with
  | none => none
  | some response_size =>
  match parse_timestamp timestamp_str with
  | none => none
  | some timestamp =>
  some { ip, country := "--", timestamp, method, path, status_code,
         response_size, user_agent := "", response_time := 0 }

/-- `str.startswith('#')`: the first character is `#`. -/
def startsWithHash (s : String) : Bool :=
  match s.data with
  | [] => false
  | c :: _ => c = '#'

/-- `LogParser.parse_log_line`: strip; skip blank and `#` lines; then the
custom, combined and common grammars in that order. -/
def parse_log_line (line : String) : Option LogEntry :=
  let line := pyStrip line
  if line = "" ∨ startsWithHash line then none
  else
    match parse_custom_format line with
    | some entry => some entry
    | none =>
      match parse_combined_format line with
      | some entry => some entry
      | none =>
        match parse_common_format line with
        | some entry => some entry
        | none => none

/-- `LogParser.parse_log_file` over the file's lines: append each parsed
entry, drop the rest, continue to the end. -/
def parse_log_file (lines : List String) : List LogEntry :=
  lines.foldl (fun entries line =>
    match parse_log_line line with
    | some entry => entries ++ [entry]
    | none => entries) []

/-! ## User-agent sanitizer (`ValidationUtils.sanitize_user_agent`) -/

/-- The characters `re.sub(r'[<>"\']', '', ...)` removes. -/
def isHarmfulChar (c : Char) : Bool :=
  c = '<' || c = '>' || c = '"' || c = Char.ofNat 39

/-- The truncation step of `sanitize_user_agent`: beyond 500 characters
the string is cut at 500 and an ellipsis is appended. -/
def truncate500 (s : String) : String :=
  if s.length > 500 then String.mk (s.data.take 500) ++ "..." else s

/-- `ValidationUtils.sanitize_user_agent`. -/
def sanitize_user_agent (user_agent : String) : String :=
  if user_agent = "" ∨ user_agent = "-" then "Unknown"
  else
    pyStrip (truncate500
      (String.mk (user_agent.data.filter (fun c => ¬ isHarmfulChar c))))

/-! ## Blocklist export (`BotDetector.export_blocklist`) -/

/-- The `risk_order` dict: LOW < MEDIUM < HIGH < CRITICAL. -/
def risk_order : List (String × Nat) :=
  [("LOW", 0), ("MEDIUM", 1), ("HIGH", 2), ("CRITICAL", 3)]

/-- The four risk-level names, in rank order. -/
def riskLevelNames : List String := ["LOW", "MEDIUM", "HIGH", "CRITICAL"]

/-- The rank a name has in the fixed order LOW<MEDIUM<HIGH<CRITICAL
(total; only ever applied to the four names). -/
def riskRank (level : String) : Nat :=
  if level = "MEDIUM" then 1
  else if level = "HIGH" then 2
  else if level = "CRITICAL" then 3
  else 0

/-- The list comprehension of `export_blocklist`: each verdict's level is
looked up left to right, a missing key raising at the first bad verdict. -/
def blocklistLoop (min_level : Nat) :
    List (String × BotDetectionResult) → Except String (List String)
  | [] => Except.ok []
  | r :: rest =>
    match risk_order.lookup r.2.risk_level with
    | none => Except.error r.2.risk_level
    | some k =>
      match blocklistLoop min_level rest with
      | Except.error e => Except.error e
      | Except.ok ips => Except.ok (if min_level ≤ k then r.1 :: ips else ips)

/-- `BotDetector.export_blocklist`: `risk_order[min_risk_level]` raises a
key error — the `InvalidRiskLevel` failure — when the name is unknown;
otherwise the IPs whose rank is at least the minimum, in map order. -/
def export_blocklist (detection_results : List (String × BotDetectionResult))
    (min_risk_level : String) : Except String (List String) :=
  match risk_order.lookup min_risk_level with
  | none => Except.error min_risk_level
  | some min_level => blocklistLoop min_level detection_results

/-! ## DDoS window analyzer

Modelled from the spec: the implementation file of the DDoS window analyzer
is not among the sources (only its configuration in `config.py` and the
`DDosAlert` record in `analysis_result.py` are), so the scan below follows
§4.4 of the design document: tumbling five-minute windows keyed by window
start over the chronologically sorted entry stream; a window alerts exactly
when its request count reaches `min_requests_threshold` (1000), its error
rate reaches `min_error_rate` (0.5) and its unique-IP fraction is below the
`min_ip_diversity` floor (0.1). -/

/-- `DDOS_DETECTION` thresholds from `config.py`. -/
def ddos_time_window_minutes : Nat := 5
/-- Minimum requests in a window to trigger an alert. -/
def ddos_min_requests_threshold : Nat := 1000
/-- Floor on the unique-IP fraction of a window. -/
def ddos_min_ip_diversity : ℚ := 0.1
/-- Minimum error rate for DDoS classification. -/
def ddos_min_error_rate : ℚ := 0.5

/-- Modelled from the spec: the `DDosAlert` record of
`analysis_result.py`, with the window-start timestamp as minutes on the
proleptic Gregorian time line. -/
structure DDosAlert where
  timestamp : Nat
  request_count : Nat
  unique_ips : Nat
  error_rate : ℚ
  severity : String
  top_ips : List (String × Nat)
  duration_minutes : Nat := 5
deriving DecidableEq, Repr

/-- Days before the first day of `m` in year `y`. -/
def daysBeforeMonth (y m : Nat) : Nat :=
  (List.range (m - 1)).foldl (fun a i => a + daysInMonth y (i + 1)) 0

/-- Day index of a civil date (days since 0001-01-01). -/
def dayNumber (y m d : Nat) : Nat :=
  365 * (y - 1) + (y - 1) / 4 - (y - 1) / 100 + (y - 1) / 400 +
    daysBeforeMonth y m + (d - 1)

/-- An entry's timestamp as minutes, normalized to UTC when the entry
carries an offset. -/
def entryMinutes (e : LogEntry) : Nat :=
  (((dayNumber e.timestamp.year e.timestamp.month e.timestamp.day * 24 +
      e.timestamp.hour) * 60 + e.timestamp.minute : Int) -
    (e.timestamp.tz_offset_minutes.getD 0)).toNat

/-- Modelled from the spec: the tumbling window an entry falls in. -/
def windowIndex (e : LogEntry) : Nat :=
  entryMinutes e / ddos_time_window_minutes

/-- Insertion sort by a strict Boolean comparison (used to rank the
top-contributing IPs of a window by descending request count). -/
def insertDesc (x : String × Nat) : List (String × Nat) → List (String × Nat)
  | [] => [x]
  | y :: ys => if y.2 < x.2 then x :: y :: ys else y :: insertDesc x ys

/-- Sort IP counts by descending count (stable on ties). -/
def sortDesc (l : List (String × Nat)) : List (String × Nat) :=
  l.foldr insertDesc []

/-- Request count per distinct IP of a window, in first-seen order. -/
def ipCounts (ws : List LogEntry) : List (String × Nat) :=
  ((ws.map (fun e => e.ip)).dedup).map
    (fun ip => (ip, (ws.filter (fun e => e.ip = ip)).length))

/-- Modelled from the spec: severity scales with how far the window exceeds
the thresholds — double the request floor or an 80 % error rate is
CRITICAL, every other alerting window is HIGH (monotone in both). -/
def ddosSeverity (request_count : Nat) (error_rate : ℚ) : String :=
  if 2 * ddos_min_requests_threshold ≤ request_count ∨ (4 : ℚ)/5 ≤ error_rate
  then "CRITICAL" else "HIGH"

/-- Modelled from the spec: the entries of the stream falling in tumbling
window `w`. -/
def windowEntries (entries : List LogEntry) (w : Nat) : List LogEntry :=
  entries.filter (fun e => windowIndex e = w)

/-- Request count of a window. -/
def windowRequestCount (entries : List LogEntry) (w : Nat) : Nat :=
  (windowEntries entries w).length

/-- Distinct-IP count of a window. -/
def windowUniqueIps (entries : List LogEntry) (w : Nat) : Nat :=
  ((windowEntries entries w).map (fun e => e.ip)).dedup.length

/-- Error rate of a window: the fraction of requests with status ≥ 400. -/
def windowErrorRate (entries : List LogEntry) (w : Nat) : ℚ :=
  if windowRequestCount entries w = 0 then 0
  else (((windowEntries entries w).filter
      (fun e => 400 ≤ e.status_code)).length : ℚ) / windowRequestCount entries w

/-- Modelled from the spec: the alert condition of a window — request
count at or above the floor, error rate at or above the floor, unique-IP
fraction strictly below the diversity floor. -/
def ddosCondition (entries : List LogEntry) (w : Nat) : Prop :=
  ddos_min_requests_threshold ≤ windowRequestCount entries w ∧
  ddos_min_error_rate ≤ windowErrorRate entries w ∧
  (windowUniqueIps entries w : ℚ) / windowRequestCount entries w <
    ddos_min_ip_diversity

instance (entries : List LogEntry) (w : Nat) :
    Decidable (ddosCondition entries w) := by
  unfold ddosCondition; infer_instance

/-- Modelled from the spec: the alert decision for the window `w` of the
stream. -/
def window_alert (entries : List LogEntry) (w : Nat) : Option DDosAlert :=
  if ddosCondition entries w then
    some { timestamp := ddos_time_window_minutes * w
           request_count := windowRequestCount entries w
           unique_ips := windowUniqueIps entries w
           error_rate := windowErrorRate entries w
           severity := ddosSeverity (windowRequestCount entries w)
             (windowErrorRate entries w)
           top_ips := (sortDesc (ipCounts (windowEntries entries w))).take 10
           duration_minutes := ddos_time_window_minutes }
  else none

/-- Modelled from the spec: scan the tumbling windows of the
chronologically sorted stream in order of first appearance and emit the
alerting ones. -/
def detect_ddos (entries : List LogEntry) : List DDosAlert :=
  ((entries.map windowIndex).dedup).filterMap (window_alert entries)

/-! ## Theorems: risk level and bot threshold -/

/-- C2: risk-level assignment is a total function of (confidence, pattern)
with first-match-wins tie-break order — CRITICAL on `confidence ≥ 0.9` or
more than 5 suspicious requests; otherwise HIGH on `confidence ≥ 0.7` or
rate above 20; otherwise MEDIUM on `confidence ≥ 0.5` or rate above 10;
otherwise LOW — so every confidence/pattern combination maps to exactly one
of the four levels, with no gap. -/
theorem c2_risk_level_total (confidence : ℚ) (p : TrafficPattern) :
    (calculate_risk_level confidence p = "CRITICAL" ∨
     calculate_risk_level confidence p = "HIGH" ∨
     calculate_risk_level confidence p = "MEDIUM" ∨
     calculate_risk_level confidence p = "LOW") ∧
    (calculate_risk_level confidence p = "CRITICAL" ↔
      (confidence ≥ 0.9 ∨ p.suspicious_requests > 5)) ∧
    (calculate_risk_level confidence p = "HIGH" ↔
      (¬(confidence ≥ 0.9 ∨ p.suspicious_requests > 5) ∧
        (confidence ≥ 0.7 ∨ p.requests_per_minute > 20))) ∧
    (calculate_risk_level confidence p = "MEDIUM" ↔
      (¬(confidence ≥ 0.9 ∨ p.suspicious_requests > 5) ∧
        ¬(confidence ≥ 0.7 ∨ p.requests_per_minute > 20) ∧
        (confidence ≥ 0.5 ∨ p.requests_per_minute > 10))) ∧
    (calculate_risk_level confidence p = "LOW" ↔
      (¬(confidence ≥ 0.9 ∨ p.suspicious_requests > 5) ∧
        ¬(confidence ≥ 0.7 ∨ p.requests_per_minute > 20) ∧
        ¬(confidence ≥ 0.5 ∨ p.requests_per_minute > 10))) := by
  unfold calculate_risk_level
  split_ifs with h1 h2 h3 <;>
    refine ⟨by simp, ?_, ?_, ?_, ?_⟩ <;> simp_all

/-! ## The user-agent score as the claim states it

The detector folds a running maximum over user agents, signatures and
patterns; the claim describes the same number as the maximum confidence
score over the signatures one of whose patterns matches one of the user
agents.  The lemmas below prove the two readings equal. -/

/-- The user-agent score in the claim's phrasing: 0.5 with no user agents,
otherwise the maximum confidence score of the matching signatures (0 when
none matches). -/
def spec_ua_score (user_agents : List String) : ℚ :=
  if user_agents = [] then 0.5
  else
    (bot_signatures.filter (fun sig =>
        user_agents.any (fun ua =>
          sig.user_agent_patterns.any (fun pat => uaPatMatch pat ua)))).foldl
      (fun acc sig => max acc sig.confidence_score) 0

theorem foldl_inflationary {α : Type} (f : ℚ → α → ℚ) (hf : ∀ a x, a ≤ f a x) :
    ∀ (l : List α) (acc : ℚ), acc ≤ l.foldl f acc := by
  intro l
  induction l with
  | nil => intro acc; simp
  | cons x xs ih => intro acc; exact le_trans (hf acc x) (ih (f acc x))

theorem foldl_le_bound {α : Type} (f : ℚ → α → ℚ) (b : ℚ) :
    ∀ (l : List α) (acc : ℚ), acc ≤ b →
      (∀ (a : ℚ) (x : α), x ∈ l → a ≤ b → f a x ≤ b) → l.foldl f acc ≤ b := by
  intro l
  induction l with
  | nil => intro acc hacc _; simpa using hacc
  | cons x xs ih =>
    intro acc hacc hstep
    exact ih (f acc x) (hstep acc x (List.mem_cons_self x xs) hacc)
      (fun a y hy ha => hstep a y (List.mem_cons_of_mem x hy) ha)

/-- Turning the innermost pattern fold into a single conditional max. -/
theorem foldl_condmax_eq_any {α : Type} (p : α → Bool) (q : ℚ) :
    ∀ (l : List α) (acc : ℚ),
      l.foldl (fun a x => if p x then max a q else a) acc =
        if l.any p then max acc q else acc := by
  intro l
  induction l with
  | nil => intro acc; simp
  | cons x xs ih =>
    intro acc
    by_cases hx : p x
    · simp only [List.foldl_cons, List.any_cons, hx, if_true, Bool.true_or, ih]
      by_cases hxs : xs.any p <;> simp [hxs, max_assoc]
    · simp [List.foldl_cons, List.any_cons, hx, ih]

theorem condmax_step_le {α : Type} (p : α → Bool) (v : α → ℚ) (a : ℚ) (x : α) :
    a ≤ if p x then max a (v x) else a := by
  split <;> simp [le_max_left]

/-- The value of a member whose condition holds is below the conditional
max fold. -/
theorem condmax_le_foldl {α : Type} (p : α → Bool) (v : α → ℚ) :
    ∀ (l : List α) (acc : ℚ) (x : α), x ∈ l → p x = true →
      v x ≤ l.foldl (fun a y => if p y then max a (v y) else a) acc := by
  intro l
  induction l with
  | nil => intro acc x hx; exact absurd hx (List.not_mem_nil x)
  | cons y ys ih =>
    intro acc x hx hpx
    rcases List.mem_cons.1 hx with h | h
    · subst h
      simp only [List.foldl_cons, hpx, if_true]
      exact le_trans (le_max_right acc (v x))
        (foldl_inflationary _ (condmax_step_le p v) ys _)
    · simp only [List.foldl_cons]
      exact ih _ x h hpx

/-- Whether a signature matches one of the user agents. -/
def sigMatches (sig : BotSignature) (user_agents : List String) : Bool :=
  user_agents.any (fun ua =>
    sig.user_agent_patterns.any (fun pat => uaPatMatch pat ua))

/-- The inner signature fold of `_analyze_user_agents`, with the pattern
fold collapsed into one conditional max per signature. -/
theorem inner_fold_eq (sigs : List BotSignature) (ua : String) (acc : ℚ) :
    sigs.foldl (fun acc2 sig =>
        sig.user_agent_patterns.foldl (fun acc3 pat =>
          if uaPatMatch pat ua then max acc3 sig.confidence_score else acc3) acc2)
      acc =
    sigs.foldl (fun acc2 sig =>
        if sig.user_agent_patterns.any (fun pat => uaPatMatch pat ua) then
          max acc2 sig.confidence_score
        else acc2) acc := by
  induction sigs generalizing acc with
  | nil => simp
  | cons sig rest ih => simp only [List.foldl_cons, foldl_condmax_eq_any, ih]

/-- The outer user-agent fold of `_analyze_user_agents` in its collapsed
form, over an arbitrary signature list. -/
def uaFold (sigs : List BotSignature) (user_agents : List String) (acc : ℚ) : ℚ :=
  user_agents.foldl (fun acc ua =>
    sigs.foldl (fun acc2 sig =>
        if sig.user_agent_patterns.any (fun pat => uaPatMatch pat ua) then
          max acc2 sig.confidence_score
        else acc2) acc) acc

theorem uaFold_inflationary (sigs : List BotSignature) (user_agents : List String)
    (acc : ℚ) : acc ≤ uaFold sigs user_agents acc := by
  unfold uaFold
  apply foldl_inflationary
  intro a ua
  exact foldl_inflationary
    (fun acc2 (sig : BotSignature) =>
      if sig.user_agent_patterns.any (fun pat => uaPatMatch pat ua) then
        max acc2 sig.confidence_score else acc2)
    (condmax_step_le
      (fun (sig : BotSignature) => sig.user_agent_patterns.any (fun pat => uaPatMatch pat ua))
      (fun (s : BotSignature) => s.confidence_score)) sigs a

/-- A matching signature's confidence bounds the code-side fold from
below. -/
theorem conf_le_uaFold (sigs : List BotSignature) (sig : BotSignature)
    (hsig : sig ∈ sigs) (ua : String)
    (hpat : sig.user_agent_patterns.any (fun pat => uaPatMatch pat ua) = true) :
    ∀ (user_agents : List String) (acc : ℚ), ua ∈ user_agents →
      sig.confidence_score ≤ uaFold sigs user_agents acc := by
  intro l
  induction l with
  | nil => intro acc h; exact absurd h (List.not_mem_nil ua)
  | cons x xs ih =>
    intro acc h
    rcases List.mem_cons.1 h with h | h
    · subst h
      unfold uaFold
      simp only [List.foldl_cons]
      exact le_trans
        (condmax_le_foldl
          (fun s => s.user_agent_patterns.any (fun pat => uaPatMatch pat ua))
          (fun s => s.confidence_score) sigs acc sig hsig hpat)
        (uaFold_inflationary sigs xs _)
    · unfold uaFold
      simp only [List.foldl_cons]
      exact ih _ h

/-- The spec-side fold over matching signatures. -/
def sigFold (sigs : List BotSignature) (user_agents : List String) : ℚ :=
  (sigs.filter (fun sig => sigMatches sig user_agents)).foldl
    (fun acc sig => max acc sig.confidence_score) 0

theorem sigFold_eq_cond (sigs : List BotSignature) (user_agents : List String) :
    sigFold sigs user_agents =
      sigs.foldl (fun acc sig =>
        if sigMatches sig user_agents then max acc sig.confidence_score else acc) 0 := by
  unfold sigFold
  generalize (0 : ℚ) = acc
  induction sigs generalizing acc with
  | nil => simp
  | cons sig rest ih =>
    by_cases h : sigMatches sig user_agents <;>
      simp [List.filter_cons, h, ih]

/-- The two orientations of the maximum agree. -/
theorem uaFold_eq_sigFold (sigs : List BotSignature) (user_agents : List String) :
    uaFold sigs user_agents 0 = sigFold sigs user_agents := by
  apply le_antisymm
  · unfold uaFold
    apply foldl_le_bound
    · rw [sigFold_eq_cond]
      exact foldl_inflationary _
        (condmax_step_le (fun sig => sigMatches sig user_agents)
          (fun s => s.confidence_score)) sigs 0
    · intro a ua hua ha
      refine foldl_le_bound _ _ sigs a ha ?_
      intro a2 sig hsig ha2
      by_cases hm : sig.user_agent_patterns.any (fun pat => uaPatMatch pat ua) = true
      · rw [if_pos hm, max_le_iff]
        refine ⟨ha2, ?_⟩
        rw [sigFold_eq_cond]
        exact condmax_le_foldl (fun s => sigMatches s user_agents)
          (fun s => s.confidence_score) sigs 0 sig hsig
          (by unfold sigMatches
              exact List.any_eq_true.2 ⟨ua, hua, hm⟩)
      · rw [if_neg hm]
        exact ha2
  · rw [sigFold_eq_cond]
    apply foldl_le_bound
    · exact uaFold_inflationary sigs user_agents 0
    · intro a sig hsig ha
      by_cases hm : sigMatches sig user_agents = true
      · rw [if_pos hm, max_le_iff]
        refine ⟨ha, ?_⟩
        rcases List.any_eq_true.1 hm with ⟨ua, hua, hpat⟩
        exact conf_le_uaFold sigs sig hsig ua hpat user_agents 0 hua
      · rw [if_neg hm]
        exact ha

/-- `_analyze_user_agents` computes exactly the claim's maximum. -/
theorem analyze_user_agents_eq_spec (user_agents : List String) :
    analyze_user_agents user_agents = spec_ua_score user_agents := by
  unfold analyze_user_agents spec_ua_score
  by_cases h : user_agents = []
  · simp [h]
  · simp only [h, if_false]
    have hcode : user_agents.foldl (fun acc ua =>
        bot_signatures.foldl (fun acc2 sig =>
          sig.user_agent_patterns.foldl (fun acc3 pat =>
            if uaPatMatch pat ua then max acc3 sig.confidence_score else acc3) acc2)
        acc) 0 = uaFold bot_signatures user_agents 0 := by
      unfold uaFold
      exact List.foldl_ext _ _ _ (fun acc ua _ => inner_fold_eq bot_signatures ua acc)
    rw [hcode, uaFold_eq_sigFold, sigFold]
    rfl

/-- The reported confidence as a clamped sum of the six contributions. -/
theorem confidence_formula (p : TrafficPattern) :
    (analyze_single_ip p).confidence =
      min 1 ((if p.requests_per_minute > 10 then (0.3 : ℚ) else 0) +
        spec_ua_score p.user_agents * 0.3 +
        (if p.unique_paths = 1 ∧ p.request_count > 10 then (0.2 : ℚ) else 0) +
        (if p.error_rate > 0.3 then (0.2 : ℚ) else 0) +
        (if p.suspicious_requests > 0 then (0.4 : ℚ) else 0) +
        (if p.requests_per_minute > 5 ∧ p.avg_response_time < 100 then (0.1 : ℚ) else 0)) := by
  have hua := analyze_user_agents_eq_spec p.user_agents
  simp only [analyze_single_ip, is_timing_suspicious, ← hua, Bool.and_eq_true,
    decide_eq_true_iff]
  split_ifs <;> ring_nf

/-- The recorded reasons, one per triggered signal, in evaluation order. -/
theorem reasons_formula (p : TrafficPattern) :
    (analyze_single_ip p).reasons =
      (if p.requests_per_minute > 10 then ["High request rate"] else []) ++
      (if spec_ua_score p.user_agents > 0 then ["Bot-like user agent detected"] else []) ++
      (if p.unique_paths = 1 ∧ p.request_count > 10 then
        ["Low path diversity with high volume"] else []) ++
      (if p.error_rate > 0.3 then ["High error rate"] else []) ++
      (if p.suspicious_requests > 0 then ["Suspicious path requests"] else []) ++
      (if p.requests_per_minute > 5 ∧ p.avg_response_time < 100 then
        ["Suspicious timing patterns"] else []) := by
  have hua := analyze_user_agents_eq_spec p.user_agents
  simp only [analyze_single_ip, is_timing_suspicious, ← hua, Bool.and_eq_true,
    decide_eq_true_iff]
  split_ifs <;> simp

/-- C1: for every traffic pattern the reported confidence is the clamped
sum of the six independent signal contributions in their fixed order —
+0.3 for rate above 10, 0.3 × the maximal signature score (0.5 with no user
agent at all), +0.2 for single-path hammering, +0.2 for error rate above
0.3, +0.4 for suspicious requests, +0.1 for the fast-timing heuristic —
with one reason recorded per triggered signal in that same order. -/
theorem c1_confidence_additive (p : TrafficPattern) :
    (analyze_single_ip p).confidence =
      min 1 ((if p.requests_per_minute > 10 then (0.3 : ℚ) else 0) +
        spec_ua_score p.user_agents * 0.3 +
        (if p.unique_paths = 1 ∧ p.request_count > 10 then (0.2 : ℚ) else 0) +
        (if p.error_rate > 0.3 then (0.2 : ℚ) else 0) +
        (if p.suspicious_requests > 0 then (0.4 : ℚ) else 0) +
        (if p.requests_per_minute > 5 ∧ p.avg_response_time < 100 then (0.1 : ℚ) else 0)) ∧
    (analyze_single_ip p).reasons =
      (if p.requests_per_minute > 10 then ["High request rate"] else []) ++
      (if spec_ua_score p.user_agents > 0 then ["Bot-like user agent detected"] else []) ++
      (if p.unique_paths = 1 ∧ p.request_count > 10 then
        ["Low path diversity with high volume"] else []) ++
      (if p.error_rate > 0.3 then ["High error rate"] else []) ++
      (if p.suspicious_requests > 0 then ["Suspicious path requests"] else []) ++
      (if p.requests_per_minute > 5 ∧ p.avg_response_time < 100 then
        ["Suspicious timing patterns"] else []) :=
  ⟨confidence_formula p, reasons_formula p⟩

/-- C4: confidence is monotone in the signal contributions and bounded —
when each of the six contributions of `p` is at most the matching
contribution of `q` (in particular when `q` only triggers one more signal
with all other fields unchanged), the confidence cannot decrease, and every
confidence is at most 1. -/
theorem c4_confidence_monotone_bounded (p q : TrafficPattern)
    (h1 : (if p.requests_per_minute > 10 then (0.3 : ℚ) else 0) ≤
          (if q.requests_per_minute > 10 then (0.3 : ℚ) else 0))
    (h2 : spec_ua_score p.user_agents ≤ spec_ua_score q.user_agents)
    (h3 : (if p.unique_paths = 1 ∧ p.request_count > 10 then (0.2 : ℚ) else 0) ≤
          (if q.unique_paths = 1 ∧ q.request_count > 10 then (0.2 : ℚ) else 0))
    (h4 : (if p.error_rate > 0.3 then (0.2 : ℚ) else 0) ≤
          (if q.error_rate > 0.3 then (0.2 : ℚ) else 0))
    (h5 : (if p.suspicious_requests > 0 then (0.4 : ℚ) else 0) ≤
          (if q.suspicious_requests > 0 then (0.4 : ℚ) else 0))
    (h6 : (if p.requests_per_minute > 5 ∧ p.avg_response_time < 100 then (0.1 : ℚ) else 0) ≤
          (if q.requests_per_minute > 5 ∧ q.avg_response_time < 100 then (0.1 : ℚ) else 0)) :
    (analyze_single_ip p).confidence ≤ (analyze_single_ip q).confidence ∧
    (analyze_single_ip p).confidence ≤ 1 := by
  rw [confidence_formula p, confidence_formula q]
  constructor
  · refine min_le_min le_rfl ?_
    gcongr
  · exact min_le_left _ _

/-- Witness for C4 at a concrete pair of patterns: the second pattern only
triggers the error-rate signal in addition. -/
theorem c4_confidence_monotone_bounded_witness :
    (analyze_single_ip
      { ip := "1.2.3.4", request_count := 5, requests_per_minute := 2,
        user_agents := [], unique_paths := 3, error_rate := 0.1,
        suspicious_requests := 0, avg_response_time := 250 }).confidence ≤
    (analyze_single_ip
      { ip := "1.2.3.4", request_count := 5, requests_per_minute := 2,
        user_agents := [], unique_paths := 3, error_rate := 0.4,
        suspicious_requests := 0, avg_response_time := 250 }).confidence ∧
    (analyze_single_ip
      { ip := "1.2.3.4", request_count := 5, requests_per_minute := 2,
        user_agents := [], unique_paths := 3, error_rate := 0.1,
        suspicious_requests := 0, avg_response_time := 250 }).confidence ≤ 1 :=
  c4_confidence_monotone_bounded _ _ (by norm_num) (by norm_num [spec_ua_score])
    (by norm_num) (by norm_num) (by norm_num) (by norm_num)

/-- C3: for every traffic pattern, the produced result has `is_bot = true`
exactly when its (clamped) confidence field exceeds the 0.5 threshold. -/
theorem c3_is_bot_iff_confidence (p : TrafficPattern) :
    (analyze_single_ip p).is_bot = true ↔
      (0.5 : ℚ) < (analyze_single_ip p).confidence := by
  show (decide _ = true) ↔ _
  rw [decide_eq_true_iff]
  unfold analyze_single_ip
  constructor
  · intro h
    exact lt_min (by norm_num) h
  · intro h
    exact lt_of_lt_of_le h (min_le_right _ _)

/-! ## Theorems: blocklist export -/

theorem lookup_riskRank {level : String} (h : level ∈ riskLevelNames) :
    risk_order.lookup level = some (riskRank level) := by
  fin_cases h <;> rfl

theorem lookup_none_of_invalid {level : String} (h : level ∉ riskLevelNames) :
    risk_order.lookup level = none := by
  simp only [riskLevelNames, List.mem_cons, List.not_mem_nil, or_false, not_or] at h
  obtain ⟨h1, h2, h3, h4⟩ := h
  simp [risk_order, List.lookup, beq_eq_false_iff_ne.2 h1, beq_eq_false_iff_ne.2 h2,
    beq_eq_false_iff_ne.2 h3, beq_eq_false_iff_ne.2 h4]

theorem export_blocklist_eq_loop (results : List (String × BotDetectionResult))
    {level : String} (h : level ∈ riskLevelNames) :
    export_blocklist results level = blocklistLoop (riskRank level) results := by
  unfold export_blocklist
  rw [lookup_riskRank h]

theorem blocklistLoop_ok (min_level : Nat) :
    ∀ (results : List (String × BotDetectionResult)),
      (∀ r ∈ results, r.2.risk_level ∈ riskLevelNames) →
      blocklistLoop min_level results =
        Except.ok ((results.filter
          (fun r => min_level ≤ riskRank r.2.risk_level)).map Prod.fst) := by
  intro results
  induction results with
  | nil => intro _; rfl
  | cons r rest ih =>
    intro hall
    rw [blocklistLoop, lookup_riskRank (hall r (List.mem_cons_self r rest)),
      ih (fun x hx => hall x (List.mem_cons_of_mem r hx))]
    by_cases h : min_level ≤ riskRank r.2.risk_level <;>
      simp [List.filter_cons, h]

/-- C6: for detection results whose verdicts all carry one of the four
level names, `export_blocklist` returns exactly the IPs whose risk rank
under LOW<MEDIUM<HIGH<CRITICAL is at least the rank of `min_risk_level`;
with "LOW" it returns every analyzed IP, and its "CRITICAL" result is a
subset of its "HIGH" result. -/
theorem c6_export_blocklist_rank (results : List (String × BotDetectionResult))
    (min_risk_level : String) (hmin : min_risk_level ∈ riskLevelNames)
    (hall : ∀ r ∈ results, r.2.risk_level ∈ riskLevelNames) :
    export_blocklist results min_risk_level =
      Except.ok ((results.filter
        (fun r => riskRank min_risk_level ≤ riskRank r.2.risk_level)).map Prod.fst) ∧
    export_blocklist results "LOW" = Except.ok (results.map Prod.fst) ∧
    (∀ (ip : String) (lc lh : List String),
      export_blocklist results "CRITICAL" = Except.ok lc →
      export_blocklist results "HIGH" = Except.ok lh →
      ip ∈ lc → ip ∈ lh) := by
  refine ⟨?_, ?_, ?_⟩
  · rw [export_blocklist_eq_loop results hmin]
    exact blocklistLoop_ok _ results hall
  · rw [export_blocklist_eq_loop results (by decide : "LOW" ∈ riskLevelNames),
      blocklistLoop_ok _ results hall]
    simp [riskRank, List.filter_eq_self]
  · intro ip lc lh hc hh hmem
    rw [export_blocklist_eq_loop results (by decide : "CRITICAL" ∈ riskLevelNames),
      blocklistLoop_ok _ results hall] at hc
    rw [export_blocklist_eq_loop results (by decide : "HIGH" ∈ riskLevelNames),
      blocklistLoop_ok _ results hall] at hh
    cases hc
    cases hh
    rcases List.mem_map.1 hmem with ⟨r, hr, rfl⟩
    rcases List.mem_filter.1 hr with ⟨hr2, hrank⟩
    refine List.mem_map.2 ⟨r, List.mem_filter.2 ⟨hr2, ?_⟩, rfl⟩
    simp only [decide_eq_true_eq] at hrank ⊢
    have hc3 : riskRank "CRITICAL" = 3 := rfl
    have hh2 : riskRank "HIGH" = 2 := rfl
    omega

/-- Concrete detection-result map used to witness the blocklist
theorems. -/
def witnessResults : List (String × BotDetectionResult) :=
  [("9.9.9.9",
    { ip := "9.9.9.9", is_bot := true, confidence := 1, reasons := [],
      risk_level := "CRITICAL", recommended_action := "BLOCK_IMMEDIATELY" }),
   ("8.8.8.8",
    { ip := "8.8.8.8", is_bot := false, confidence := 0.2, reasons := [],
      risk_level := "LOW", recommended_action := "MONITOR" })]

/-- Witness for C6: on the concrete map, exporting at HIGH keeps exactly
the CRITICAL verdict. -/
theorem c6_export_blocklist_rank_witness :
    export_blocklist witnessResults "HIGH" = Except.ok ["9.9.9.9"] := by
  have h := (c6_export_blocklist_rank witnessResults "HIGH" (by decide)
    (by decide)).1
  simpa [witnessResults, riskRank] using h

/-- C7: for detection results whose verdicts all carry one of the four
level names, `export_blocklist` fails exactly when `min_risk_level` is not
one of the four names; the failure produces no list. -/
theorem c7_export_blocklist_invalid (results : List (String × BotDetectionResult))
    (min_risk_level : String)
    (hall : ∀ r ∈ results, r.2.risk_level ∈ riskLevelNames) :
    (∃ e, export_blocklist results min_risk_level = Except.error e) ↔
      min_risk_level ∉ riskLevelNames := by
  by_cases hm : min_risk_level ∈ riskLevelNames
  · simp only [hm, not_true, iff_false, not_exists]
    intro e
    rw [export_blocklist_eq_loop results hm, blocklistLoop_ok _ results hall]
    simp
  · simp only [hm, not_false_iff, iff_true]
    refine ⟨min_risk_level, ?_⟩
    unfold export_blocklist
    rw [lookup_none_of_invalid hm]

/-- Witness for C7: an unknown level name fails on the concrete map, a
known one does not. -/
theorem c7_export_blocklist_invalid_witness :
    ∃ e, export_blocklist witnessResults "SEVERE" = Except.error e :=
  (c7_export_blocklist_invalid witnessResults "SEVERE" (by decide)).2 (by decide)

/-! ## Theorems: the line parser -/

/-- C8: `parse_log_line` skips a line that strips to empty or starts with
`#`, and otherwise returns the result of the first of the three grammars —
custom, then combined, then common — that matches the stripped line. -/
theorem c8_parse_line_order (line : String) :
    ((pyStrip line = "" ∨ startsWithHash (pyStrip line) = true) →
      parse_log_line line = none) ∧
    (∀ e, ¬(pyStrip line = "" ∨ startsWithHash (pyStrip line) = true) →
      parse_custom_format (pyStrip line) = some e → parse_log_line line = some e) ∧
    (∀ e, ¬(pyStrip line = "" ∨ startsWithHash (pyStrip line) = true) →
      parse_custom_format (pyStrip line) = none →
      parse_combined_format (pyStrip line) = some e → parse_log_line line = some e) ∧
    (¬(pyStrip line = "" ∨ startsWithHash (pyStrip line) = true) →
      parse_custom_format (pyStrip line) = none →
      parse_combined_format (pyStrip line) = none →
      parse_log_line line = parse_common_format (pyStrip line)) := by
  refine ⟨?_, ?_, ?_, ?_⟩
  · intro h
    unfold parse_log_line
    simp [h]
  · intro e h hcu
    unfold parse_log_line
    simp only [if_neg h, hcu]
  · intro e h hcu hco
    unfold parse_log_line
    simp only [if_neg h, hcu, hco]
  · intro h hcu hco
    unfold parse_log_line
    simp only [if_neg h, hcu, hco]
    cases parse_common_format (pyStrip line) <;> rfl

set_option maxRecDepth 8000 in
/-- Witness for C8 at concrete lines: a comment line is skipped, and a
Common Log Format line (matched by neither the custom nor the combined
grammar) is parsed by the common grammar. -/
theorem c8_parse_line_order_witness :
    parse_log_line "# comment" = none ∧
    parse_log_line "7.7.7.7 - - [2025-07-01 06:00:01] \"GET / HTTP/1.1\" 200 5" =
      parse_common_format
        (pyStrip "7.7.7.7 - - [2025-07-01 06:00:01] \"GET / HTTP/1.1\" 200 5") := by
  constructor
  · exact (c8_parse_line_order "# comment").1 (Or.inr (by decide))
  · exact (c8_parse_line_order _).2.2.2 (by decide) (by decide) (by decide)

/-- The file loop with an explicit accumulator equals the accumulator
followed by the filtered parses. -/
theorem parse_log_file_loop (lines : List String) :
    ∀ (acc : List LogEntry),
      lines.foldl (fun entries line =>
        match parse_log_line line with
        | some entry => entries ++ [entry]
        | none => entries) acc = acc ++ lines.filterMap parse_log_line := by
  induction lines with
  | nil => intro acc; simp
  | cons l rest ih =>
    intro acc
    simp only [List.foldl_cons, List.filterMap_cons]
    cases h : parse_log_line l with
    | none => simpa using ih acc
    | some e => simpa using ih (acc ++ [e])

set_option maxRecDepth 8000 in
/-- C9: `parse_log_line` is total — every line yields an entry or the
no-entry value (shown for a truncated entry and an unknown timestamp
format) — and the file-level parse drops each unparsable line and returns
exactly the successfully parsed entries in input order. -/
theorem c9_parse_total_and_file_order :
    (∀ (lines : List String),
      parse_log_file lines = lines.filterMap parse_log_line) ∧
    (∀ (line : String),
      parse_log_line line = none ∨ ∃ e, parse_log_line line = some e) ∧
    parse_log_line "1.2.3.4 - - [01/Jul/2025" = none ∧
    parse_log_line "1.2.3.4 - - [99/99/9999:99:99:99] \"GET / HTTP/1.1\" 200 512" =
      none := by
  refine ⟨?_, ?_, by decide, by decide⟩
  · intro lines
    unfold parse_log_file
    simpa using parse_log_file_loop lines []
  · intro line
    cases h : parse_log_line line with
    | none => exact Or.inl rfl
    | some e => exact Or.inr ⟨e, rfl⟩

/-! ## Theorems: user-agent sanitization (C10)

The sanitizer exists in `validation.py`, but the parser never applies it:
the stored user agent is the matched text verbatim (the empty string for
the common format). -/

set_option maxRecDepth 8000 in
/-- C10 counterexample: a custom-format line whose user agent contains a
control character parses to an entry that keeps it verbatim — neither
control nor quote stripping happened — and a common-format line stores the
empty string, not "Unknown". -/
theorem c10_counterexample_unsanitized :
    (parse_log_line
        "1.2.3.4 - US - [2025-07-01 06:00:01] \"GET /x HTTP/1.1\" 200 512 \"-\" \"a\tb\" 42").map
      (fun e => e.user_agent) = some "a\tb" ∧
    (parse_log_line "1.2.3.4 - - [2025-07-01 06:00:01] \"GET / HTTP/1.1\" 200 512").map
      (fun e => e.user_agent) = some "" := by
  constructor <;> decide

theorem mem_pyStrip {s : String} {c : Char} (hc : c ∈ (pyStrip s).data) :
    c ∈ s.data := by
  have hc2 : c ∈ ((s.data.dropWhile isPySpace).reverse.dropWhile isPySpace).reverse := hc
  rw [List.mem_reverse] at hc2
  have hc3 := (List.dropWhile_sublist isPySpace).subset hc2
  rw [List.mem_reverse] at hc3
  exact (List.dropWhile_sublist isPySpace).subset hc3

theorem pyStrip_length_le (s : String) : (pyStrip s).length ≤ s.length := by
  unfold pyStrip
  rw [String.length_mk]
  calc (((s.data.dropWhile isPySpace).reverse.dropWhile isPySpace).reverse).length
      = (((s.data.dropWhile isPySpace).reverse.dropWhile isPySpace)).length := by
        rw [List.length_reverse]
    _ ≤ ((s.data.dropWhile isPySpace).reverse).length :=
        ((s.data.dropWhile isPySpace).reverse.dropWhile_sublist isPySpace).length_le
    _ = ((s.data.dropWhile isPySpace)).length := by rw [List.length_reverse]
    _ ≤ s.data.length := (s.data.dropWhile_sublist isPySpace).length_le

/-- C10 amended: the sanitizer itself maps empty (or `-`) input to
"Unknown", removes every angle-bracket and quote character, and caps long
input at 500 characters plus a three-character ellipsis, so every
sanitized result has at most 503 characters — but it is the
sanitizer alone that does so; the parser stores the matched user-agent text
verbatim, as the counterexample shows. -/
theorem c10_sanitize_user_agent_props (s : String) :
    (s = "" ∨ s = "-" → sanitize_user_agent s = "Unknown") ∧
    (∀ c ∈ (sanitize_user_agent s).data, isHarmfulChar c = false) ∧
    (sanitize_user_agent s).length ≤ 503 := by
  refine ⟨?_, ?_, ?_⟩
  · intro h
    unfold sanitize_user_agent
    simp [h]
  · intro c hc
    unfold sanitize_user_agent truncate500 at hc
    split_ifs at hc with h1 h2
    · fin_cases hc <;> rfl
    · have hc2 := mem_pyStrip hc
      rw [String.data_append] at hc2
      rcases List.mem_append.1 hc2 with h | h
      · have h3 : c ∈ (s.data.filter (fun c => ¬ isHarmfulChar c)).take 500 := h
        have h4 := List.mem_filter.1 (List.take_subset _ _ h3)
        simpa using h4.2
      · fin_cases h <;> rfl
    · have hc2 := mem_pyStrip hc
      have h3 : c ∈ s.data.filter (fun c => ¬ isHarmfulChar c) := hc2
      have h4 := List.mem_filter.1 h3
      simpa using h4.2
  · unfold sanitize_user_agent truncate500
    split_ifs with h1 h2
    · decide
    · refine le_trans (pyStrip_length_le _) ?_
      have h3 : ("..." : String).length = 3 := by decide
      rw [String.length_append, String.length_mk, List.length_take, h3]
      omega
    · -- without truncation the sanitized text is already at most 500 long
      refine le_trans (pyStrip_length_le _) ?_
      rw [String.length_mk] at h2 ⊢
      omega

/-- Witness for C10's amended statement at concrete inputs. -/
theorem c10_sanitize_user_agent_props_witness :
    sanitize_user_agent "" = "Unknown" :=
  (c10_sanitize_user_agent_props "").1 (Or.inl rfl)

/-! ## Theorems: DDoS window analyzer (C5) -/

/-- IP names used by the C5 scenario: twelve distinct sources. -/
def scenarioIp (k : Nat) : String := "10.0.0." ++ toString k

/-- Scenario window A: request `i` of 1200, spread over the five minutes
from 06:00, from one of 12 IPs, with 60 % error responses. -/
def scenarioEntryA (i : Nat) : LogEntry :=
  { ip := scenarioIp (i % 12)
    country := "US"
    timestamp := { year := 2025, month := 7, day := 1, hour := 6,
                   minute := i / 240, second := 0 }
    method := "GET"
    path := "/"
    status_code := if i % 5 < 3 then 503 else 200
    response_size := 100
    user_agent := "Mozilla/5.0"
    response_time := 10 }

/-- Scenario window B: request `i` of 400 in the adjacent five minutes. -/
def scenarioEntryB (i : Nat) : LogEntry :=
  { ip := "10.0.0.200"
    country := "US"
    timestamp := { year := 2025, month := 7, day := 1, hour := 6,
                   minute := 5 + i / 80, second := 0 }
    method := "GET"
    path := "/"
    status_code := 503
    response_size := 100
    user_agent := "Mozilla/5.0"
    response_time := 10 }

/-- The first scenario window (1200 entries). -/
def scenarioWindowA : List LogEntry := (List.range 1200).map scenarioEntryA

/-- The adjacent scenario window (400 entries). -/
def scenarioWindowB : List LogEntry := (List.range 400).map scenarioEntryB

/-- The chronologically sorted scenario stream of C5. -/
def ddosScenario : List LogEntry := scenarioWindowA ++ scenarioWindowB

/-- The tumbling-window index of the scenario's first window. -/
def scenarioW : Nat := 212956488

theorem dayNumber_scenario : dayNumber 2025 7 1 = 739432 := by rfl

theorem scA_fields (i : Nat) :
    (scenarioEntryA i).timestamp.year = 2025 ∧
    (scenarioEntryA i).timestamp.month = 7 ∧
    (scenarioEntryA i).timestamp.day = 1 ∧
    (scenarioEntryA i).timestamp.hour = 6 ∧
    (scenarioEntryA i).timestamp.minute = i / 240 ∧
    (scenarioEntryA i).timestamp.tz_offset_minutes = none :=
  ⟨rfl, rfl, rfl, rfl, rfl, rfl⟩

theorem scB_fields (i : Nat) :
    (scenarioEntryB i).timestamp.year = 2025 ∧
    (scenarioEntryB i).timestamp.month = 7 ∧
    (scenarioEntryB i).timestamp.day = 1 ∧
    (scenarioEntryB i).timestamp.hour = 6 ∧
    (scenarioEntryB i).timestamp.minute = 5 + i / 80 ∧
    (scenarioEntryB i).timestamp.tz_offset_minutes = none :=
  ⟨rfl, rfl, rfl, rfl, rfl, rfl⟩

theorem entryMinutes_scA (i : Nat) :
    entryMinutes (scenarioEntryA i) = 1064782440 + i / 240 := by
  rw [entryMinutes, (scA_fields i).1, (scA_fields i).2.1, (scA_fields i).2.2.1,
    (scA_fields i).2.2.2.1, (scA_fields i).2.2.2.2.1, (scA_fields i).2.2.2.2.2,
    dayNumber_scenario]
  simp only [Option.getD_none]
  omega

theorem entryMinutes_scB (i : Nat) :
    entryMinutes (scenarioEntryB i) = 1064782445 + i / 80 := by
  rw [entryMinutes, (scB_fields i).1, (scB_fields i).2.1, (scB_fields i).2.2.1,
    (scB_fields i).2.2.2.1, (scB_fields i).2.2.2.2.1, (scB_fields i).2.2.2.2.2,
    dayNumber_scenario]
  simp only [Option.getD_none]
  omega

theorem windowIndex_scA {i : Nat} (hi : i < 1200) :
    windowIndex (scenarioEntryA i) = scenarioW := by
  unfold windowIndex ddos_time_window_minutes scenarioW
  rw [entryMinutes_scA]
  omega

theorem windowIndex_scB {i : Nat} (hi : i < 400) :
    windowIndex (scenarioEntryB i) = scenarioW + 1 := by
  unfold windowIndex ddos_time_window_minutes scenarioW
  rw [entryMinutes_scB]
  omega

theorem scenario_map_windowIndex :
    ddosScenario.map windowIndex =
      List.replicate 1200 scenarioW ++ List.replicate 400 (scenarioW + 1) := by
  unfold ddosScenario scenarioWindowA scenarioWindowB
  rw [List.map_append, List.map_map, List.map_map]
  have hA : (List.range 1200).map (windowIndex ∘ scenarioEntryA) =
      List.replicate 1200 scenarioW := by
    refine List.eq_replicate_iff.2 ⟨by simp, ?_⟩
    intro b hb
    rcases List.mem_map.1 hb with ⟨i, hi, rfl⟩
    exact windowIndex_scA (List.mem_range.1 hi)
  have hB : (List.range 400).map (windowIndex ∘ scenarioEntryB) =
      List.replicate 400 (scenarioW + 1) := by
    refine List.eq_replicate_iff.2 ⟨by simp, ?_⟩
    intro b hb
    rcases List.mem_map.1 hb with ⟨i, hi, rfl⟩
    exact windowIndex_scB (List.mem_range.1 hi)
  rw [hA, hB]

theorem dedup_replicate {α : Type} [DecidableEq α] (a : α) :
    ∀ (n : Nat), 0 < n → (List.replicate n a).dedup = [a] := by
  intro n
  induction n with
  | zero => intro h; exact absurd h (by simp)
  | succ m ih =>
    intro _
    cases Nat.eq_zero_or_pos m with
    | inl h0 => subst h0; rfl
    | inr hpos =>
      rw [List.replicate_succ, List.dedup_cons_of_mem
        (by simp [List.mem_replicate]; omega), ih hpos]

theorem dedup_replicate_append {α : Type} [DecidableEq α] (a b : α)
    (hab : a ≠ b) :
    ∀ (m : Nat), 0 < m → ∀ (n : Nat), 0 < n →
      (List.replicate m a ++ List.replicate n b).dedup = [a, b] := by
  intro m
  induction m with
  | zero => intro h; exact absurd h (by simp)
  | succ k ih =>
    intro _ n hn
    cases Nat.eq_zero_or_pos k with
    | inl h0 =>
      subst h0
      rw [List.replicate_succ]
      simp only [List.replicate_zero, List.nil_append, List.cons_append]
      rw [List.dedup_cons_of_not_mem
        (by simp [List.mem_replicate]; intro _; exact hab), dedup_replicate b n hn]
    | inr hpos =>
      rw [List.replicate_succ, List.cons_append, List.dedup_cons_of_mem
        (by simp [List.mem_replicate]; omega), ih hpos n hn]

theorem scenario_dedup :
    (ddosScenario.map windowIndex).dedup = [scenarioW, scenarioW + 1] := by
  rw [scenario_map_windowIndex]
  exact dedup_replicate_append _ _ (by omega) 1200 (by omega) 400 (by omega)

theorem scenario_windowEntries_A :
    windowEntries ddosScenario scenarioW = scenarioWindowA := by
  unfold windowEntries ddosScenario
  rw [List.filter_append]
  have hA : scenarioWindowA.filter (fun e => windowIndex e = scenarioW) =
      scenarioWindowA := by
    refine List.filter_eq_self.2 ?_
    intro e he
    rcases List.mem_map.1 he with ⟨i, hi, rfl⟩
    simpa using windowIndex_scA (List.mem_range.1 hi)
  have hB : scenarioWindowB.filter (fun e => windowIndex e = scenarioW) = [] := by
    refine List.filter_eq_nil_iff.2 ?_
    intro e he
    rcases List.mem_map.1 he with ⟨i, hi, rfl⟩
    simp [windowIndex_scB (List.mem_range.1 hi)]
  rw [hA, hB, List.append_nil]

theorem scenario_windowEntries_B :
    windowEntries ddosScenario (scenarioW + 1) = scenarioWindowB := by
  unfold windowEntries ddosScenario
  rw [List.filter_append]
  have hA : scenarioWindowA.filter (fun e => windowIndex e = scenarioW + 1) = [] := by
    refine List.filter_eq_nil_iff.2 ?_
    intro e he
    rcases List.mem_map.1 he with ⟨i, hi, rfl⟩
    simp [windowIndex_scA (List.mem_range.1 hi)]
  have hB : scenarioWindowB.filter (fun e => windowIndex e = scenarioW + 1) =
      scenarioWindowB := by
    refine List.filter_eq_self.2 ?_
    intro e he
    rcases List.mem_map.1 he with ⟨i, hi, rfl⟩
    simpa using windowIndex_scB (List.mem_range.1 hi)
  rw [hA, hB, List.nil_append]

theorem scenario_rc_A : windowRequestCount ddosScenario scenarioW = 1200 := by
  unfold windowRequestCount
  rw [scenario_windowEntries_A]
  simp [scenarioWindowA]

theorem scenario_rc_B : windowRequestCount ddosScenario (scenarioW + 1) = 400 := by
  unfold windowRequestCount
  rw [scenario_windowEntries_B]
  simp [scenarioWindowB]

theorem dedup_append_of_subset {α : Type} [DecidableEq α] :
    ∀ (xs ys : List α), (∀ x ∈ xs, x ∈ ys) → (xs ++ ys).dedup = ys.dedup := by
  intro xs
  induction xs with
  | nil => intro ys _; rfl
  | cons x rest ih =>
    intro ys hsub
    rw [List.cons_append, List.dedup_cons_of_mem
      (List.mem_append.2 (Or.inr (hsub x (List.mem_cons_self x rest))))]
    exact ih ys (fun y hy => hsub y (List.mem_cons_of_mem x hy))

set_option maxRecDepth 4000 in
theorem scenario_uniq_A : windowUniqueIps ddosScenario scenarioW = 12 := by
  unfold windowUniqueIps
  rw [scenario_windowEntries_A]
  unfold scenarioWindowA
  rw [List.map_map]
  have hmap : (List.range 1200).map ((fun (e : LogEntry) => e.ip) ∘ scenarioEntryA) =
      (List.range 1200).map (fun i => scenarioIp (i % 12)) :=
    List.map_congr_left (fun i _ => rfl)
  rw [hmap]
  have h1200 : (1200 : Nat) = 1188 + 12 := by norm_num
  rw [h1200, List.range_add, List.map_append, List.map_map]
  have hys : (List.range 12).map ((fun i => scenarioIp (i % 12)) ∘ (fun i => 1188 + i)) =
      (List.range 12).map scenarioIp := by
    refine List.map_congr_left ?_
    intro i hi
    have hi12 : i < 12 := List.mem_range.1 hi
    simp only [Function.comp_apply]
    congr 1
    omega
  rw [hys]
  have hsub : ∀ x ∈ (List.range 1188).map (fun i => scenarioIp (i % 12)),
      x ∈ (List.range 12).map scenarioIp := by
    intro x hx
    rcases List.mem_map.1 hx with ⟨i, _, rfl⟩
    exact List.mem_map.2 ⟨i % 12, List.mem_range.2 (by omega), rfl⟩
  rw [dedup_append_of_subset _ _ hsub]
  decide

theorem countP_mod5 (n : Nat) :
    (List.range (5 * n)).countP (fun i => decide (i % 5 < 3)) = 3 * n := by
  induction n with
  | zero => rfl
  | succ m ih =>
    have h5 : 5 * (m + 1) = 5 * m + 5 := by ring
    rw [h5, List.range_add, List.countP_append, ih, List.countP_map]
    have he : ∀ x ∈ List.range 5,
        (((fun i => decide (i % 5 < 3)) ∘ (fun i => 5 * m + i)) x = true ↔
          (fun i => decide (i < 3)) x = true) := by
      intro x hx
      have hx5 := List.mem_range.1 hx
      simp only [Function.comp_apply]
      have hmod : (5 * m + x) % 5 = x := by omega
      rw [hmod]
    rw [List.countP_congr he]
    have h3 : (List.range 5).countP (fun i => decide (i < 3)) = 3 := by decide
    rw [h3]
    ring

theorem scenario_errors_A :
    ((windowEntries ddosScenario scenarioW).filter
      (fun e => 400 ≤ e.status_code)).length = 720 := by
  rw [scenario_windowEntries_A]
  unfold scenarioWindowA
  rw [← List.countP_eq_length_filter, List.countP_map]
  have he : ∀ i ∈ List.range 1200,
      (((fun (e : LogEntry) => decide (400 ≤ e.status_code)) ∘ scenarioEntryA) i = true ↔
        (fun i => decide (i % 5 < 3)) i = true) := by
    intro i _
    simp only [Function.comp_apply]
    have hsc : (scenarioEntryA i).status_code = if i % 5 < 3 then 503 else 200 := rfl
    by_cases h : i % 5 < 3 <;> simp [hsc, h]
  rw [List.countP_congr he]
  have h12 : (1200 : Nat) = 5 * 240 := by norm_num
  rw [h12, countP_mod5]

theorem scenario_errorRate_A : windowErrorRate ddosScenario scenarioW = 3 / 5 := by
  unfold windowErrorRate
  rw [scenario_rc_A, scenario_errors_A]
  norm_num

theorem scenario_cond_A : ddosCondition ddosScenario scenarioW := by
  unfold ddosCondition ddos_min_requests_threshold ddos_min_error_rate
    ddos_min_ip_diversity
  rw [scenario_rc_A, scenario_uniq_A, scenario_errorRate_A]
  norm_num

theorem scenario_cond_B : ¬ ddosCondition ddosScenario (scenarioW + 1) := by
  unfold ddosCondition ddos_min_requests_threshold
  rw [scenario_rc_B]
  intro h
  exact absurd h.1 (by norm_num)

theorem window_alert_some {entries : List LogEntry} {w : Nat}
    (h : ddosCondition entries w) :
    ∃ a, window_alert entries w = some a ∧
      a.timestamp = ddos_time_window_minutes * w ∧
      a.request_count = windowRequestCount entries w ∧
      a.unique_ips = windowUniqueIps entries w ∧
      a.error_rate = windowErrorRate entries w := by
  unfold window_alert
  rw [if_pos h]
  exact ⟨_, rfl, rfl, rfl, rfl, rfl⟩

theorem window_alert_none {entries : List LogEntry} {w : Nat}
    (h : ¬ ddosCondition entries w) : window_alert entries w = none := by
  unfold window_alert
  rw [if_neg h]

theorem window_alert_inv {entries : List LogEntry} {w : Nat} {a : DDosAlert}
    (h : window_alert entries w = some a) :
    ddosCondition entries w ∧ a.timestamp = ddos_time_window_minutes * w := by
  unfold window_alert at h
  split_ifs at h with hc
  cases h
  exact ⟨hc, rfl⟩

/-- C5: scanning the tumbling five-minute windows of the sorted stream
emits an alert for a window exactly when its request count reaches 1000,
its error rate reaches 0.5 and its distinct-IP fraction is below the 0.1
floor; on the scenario stream — 1200 requests from 12 IPs with 60 % errors
in one window, 400 requests in the adjacent window — exactly one alert is
emitted, for the first window, with the stated statistics. -/
theorem c5_ddos_window_alerts :
    (∀ (entries : List LogEntry) (w : Nat),
      (∃ a ∈ detect_ddos entries, a.timestamp = ddos_time_window_minutes * w) ↔
        (w ∈ entries.map windowIndex ∧ ddosCondition entries w)) ∧
    (detect_ddos ddosScenario).map
        (fun a => (a.timestamp, a.request_count, a.unique_ips, a.error_rate)) =
      [(ddos_time_window_minutes * scenarioW, 1200, 12, (3 : ℚ) / 5)] := by
  constructor
  · intro entries w
    constructor
    · rintro ⟨a, ha, hts⟩
      unfold detect_ddos at ha
      rcases List.mem_filterMap.1 ha with ⟨w2, hw2, hsome⟩
      obtain ⟨hcond, hts2⟩ := window_alert_inv hsome
      have hw2w : w2 = w := by
        rw [hts2] at hts
        unfold ddos_time_window_minutes at hts
        omega
      subst hw2w
      exact ⟨List.mem_dedup.1 hw2, hcond⟩
    · rintro ⟨hw, hcond⟩
      obtain ⟨a, hsome, hts, _, _, _⟩ := window_alert_some hcond
      refine ⟨a, ?_, hts⟩
      unfold detect_ddos
      exact List.mem_filterMap.2 ⟨w, List.mem_dedup.2 hw, hsome⟩
  · unfold detect_ddos
    rw [scenario_dedup]
    obtain ⟨a, hsome, hts, hrc, huq, her⟩ := window_alert_some scenario_cond_A
    rw [List.filterMap_cons, hsome, List.filterMap_cons,
      window_alert_none scenario_cond_B, List.filterMap_nil]
    simp only [List.map_cons, List.map_nil, hts, hrc, huq, her,
      scenario_rc_A, scenario_uniq_A, scenario_errorRate_A]

end BotDetection
